import Mathlib

/-!
Verification development for the `anq_scaff` project scaffolding engine.

The definitions below are a shallow embedding of the Python sources:
  * `template_engine.py` — template store and renderer
    (`TemplateEngine.render`, `string.Template.safe_substitute` semantics);
  * `generator.py` — the directory-structure builder, the template-to-target
    mapping table, and the transactional project generator
    (`ProjectGenerator.generate` and its phases);
  * `module_generator.py` — the module augmentor (`ModuleGenerator.generate`).

The filesystem is modelled as a pair of finite association structures
(directories and files keyed by component paths); Python exceptions become
an explicit error type threaded through each operation.
-/

/-- Association lookup on string-keyed lists; mirrors Python `dict.get` for
the insertion-ordered dicts used by the sources (first match wins; the
shipped dicts have distinct keys). -/
def alookup : List (String × String) → String → Option String
  | [], _ => none
  | (k, v) :: rest, key => if k = key then some v else alookup rest key

/-- Path inside the modelled filesystem, as a list of components. -/
abbrev FPath := List String

/-- Render context: the `dict[str, Any]` passed to template rendering, with
values already stringified the way `string.Template` stringifies them. -/
abbrev Ctx := List (String × String)

/-- Lookup in the file table. -/
def flookup : List (FPath × String) → FPath → Option String
  | [], _ => none
  | (q, c) :: rest, p => if q = p then some c else flookup rest p

/-- Update-or-append in the file table (the semantics of `write_text`:
overwrite if present, create otherwise). -/
def fset : List (FPath × String) → FPath → String → List (FPath × String)
  | [], p, c => [(p, c)]
  | (q, d) :: rest, p, c => if q = p then (p, c) :: rest else (q, d) :: fset rest p c

/-- Split a `/`-separated relative path string into components, as `pathlib`
does when a string like `"app/api/default"` is joined onto a base path. -/
def splitSlashAux : List Char → List Char → List String
  | [], acc => [⟨acc.reverse⟩]
  | c :: rest, acc =>
    if c = '/' then (⟨acc.reverse⟩ : String) :: splitSlashAux rest []
    else splitSlashAux rest (c :: acc)

/-- Split a slash-separated string into path components. -/
def splitSlash (s : String) : FPath := splitSlashAux s.data []

/-- `ProjectGenerator._get_template_name`: strip a trailing `".py"`
(`template_name[:-3]` after `endswith(".py")`), other names unchanged. -/
def stripPy (s : String) : String :=
  match s.data.reverse with
  | 'y' :: 'p' :: '.' :: rest => ⟨rest.reverse⟩
  | _ => s

/-- How `string.Template` stringifies a Python `bool` placed in a context. -/
def pyBoolStr (b : Bool) : String := if b then "True" else "False"

/-- Python `str.capitalize()`: first character uppercased, all remaining
characters lowercased (ASCII model). -/
def pyCapitalize (s : String) : String :=
  match s.data with
  | [] => ""
  | c :: rest => ⟨c.toUpper :: rest.map Char.toLower⟩

/-- Fuel-driven worker for Python `str.replace`: replace every
non-overlapping occurrence of `pat`, scanning left to right. -/
def replaceAllAux (pat new : List Char) : Nat → List Char → List Char
  | 0, s => s
  | _ + 1, [] => []
  | fuel + 1, c :: rest =>
    if pat ≠ [] ∧ pat.isPrefixOf (c :: rest) then
      new ++ replaceAllAux pat new fuel ((c :: rest).drop pat.length)
    else
      c :: replaceAllAux pat new fuel rest

/-- Python `s.replace(pat, new)` for a non-empty pattern. -/
def replaceAll (s pat new : String) : String :=
  ⟨replaceAllAux pat.data new.data s.data.length s.data⟩

/-- `"\n".join(...)` on a list of strings. -/
def joinNL : List String → String
  | [] => ""
  | [s] => s
  | s :: rest => s ++ "\n" ++ joinNL rest

/-- Start character of a `string.Template` identifier: `[A-Za-z_]`
(the stdlib pattern `[_a-z]` with `IGNORECASE`; ASCII model). -/
def isIdStart (c : Char) : Bool := c.isAlpha || c = '_'

/-- Continuation character of a `string.Template` identifier: `[A-Za-z0-9_]`. -/
def isIdChar (c : Char) : Bool := c.isAlphanum || c = '_'

/-- The `'{'` delimiter character opening a braced placeholder. -/
def openBrace : Char := '\x7b'

/-- The `'}'` delimiter character closing a braced placeholder. -/
def closeBrace : Char := '\x7d'

/-- Greedily take the identifier-character run at the head of the input
(the regex's maximal munch of `[_a-z0-9]*`), returning it and the rest. -/
def spanId : List Char → List Char × List Char
  | [] => ([], [])
  | c :: rest =>
    if isIdChar c then ((c :: (spanId rest).1, (spanId rest).2)) else ([], c :: rest)

/-- A captured run is a valid placeholder identifier iff it is non-empty and
its first character is an identifier-start character. -/
def idOk : List Char → Bool
  | [] => false
  | c :: _ => isIdStart c

/-- The scanning loop of `string.Template.safe_substitute`, transcribed from
the stdlib pattern
`\$(?:(?P<escaped>\$)|(?P<named>[_a-z][_a-z0-9]*)|(?P<brace_alt>...)|(?P<invalid>))`
(the third alternative being the brace-delimited identifier) with its safe
handler: `escaped` yields the delimiter, the named and braced alternatives
yield the context value when the key is present and the original text
otherwise, `invalid` yields the lone delimiter and scanning resumes after
it.  The `fuel` argument only drives structural recursion; every recursive
call consumes at least one input character, so any `fuel ≥ length` computes
the scan (see `substAuxF_congr`). -/
def substAuxF (ctx : Ctx) : Nat → List Char → List Char
  | 0, l => l
  | _ + 1, [] => []
  | f + 1, c :: rest =>
    if c = '$' then
      match rest with
      | [] => ['$']
      | d :: rest' =>
        if d = '$' then
          '$' :: substAuxF ctx f rest'
        else if d = openBrace then
          if (spanId rest').2.headD 'x' = closeBrace ∧ idOk (spanId rest').1 = true then
            match alookup ctx ⟨(spanId rest').1⟩ with
            | some v => v.data ++ substAuxF ctx f (spanId rest').2.tail
            | none =>
              '$' :: openBrace :: ((spanId rest').1 ++ closeBrace :: substAuxF ctx f (spanId rest').2.tail)
          else '$' :: substAuxF ctx f (d :: rest')
        else if isIdStart d then
          match alookup ctx ⟨(spanId (d :: rest')).1⟩ with
          | some v => v.data ++ substAuxF ctx f (spanId (d :: rest')).2
          | none => '$' :: ((spanId (d :: rest')).1 ++ substAuxF ctx f (spanId (d :: rest')).2)
        else '$' :: substAuxF ctx f (d :: rest')
    else c :: substAuxF ctx f rest

/-- The scan applied with exactly enough fuel. -/
def substAux (ctx : Ctx) (l : List Char) : List Char := substAuxF ctx l.length l

/-- `string.Template(text).safe_substitute(**context)`. -/
def safeSubstitute (text : String) (ctx : Ctx) : String := ⟨substAux ctx text.data⟩

/-- The template engine's state after construction: the catalog loaded by
`_load_templates` (`self.templates`) and the result of
`_get_inline_templates()` (the fallback catalog sourced from an adjacent
known-good project tree when it exists, empty otherwise); both are read-only
maps from template name to text. -/
structure TemplateEngine where
  templates : List (String × String)
  inline : List (String × String)
deriving DecidableEq

/-- The defensive line `TemplateEngine.render` produces for a missing
template. -/
def notFoundLine (name : String) : String := "# Template " ++ name ++ " not found\n"

/-- Python truthiness of `Optional[str]`: `None` and `""` are falsy. -/
def pyFalsy : Option String → Bool
  | none => true
  | some s => s = ""

/-- `TemplateEngine.render`: look the name up in the loaded catalog; if the
result is falsy fall back to the inline catalog (`.get(name, "")`); if that
is still falsy return the not-found line; otherwise safe-substitute the
context into the template text. -/
def TemplateEngine.render (eng : TemplateEngine) (name : String) (ctx : Ctx) : String :=
  let t0 : Option String := alookup eng.templates name
  let t1 : String := if pyFalsy t0 then (alookup eng.inline name).getD "" else t0.getD ""
  if t1 = "" then notFoundLine name else safeSubstitute t1 ctx

/-- The modelled filesystem: the set of existing directories and the file
contents, both keyed by component paths. -/
structure FS where
  dirs : List FPath
  files : List (FPath × String)
deriving DecidableEq

/-- Content of a file, `none` when absent. -/
def FS.fileLookup (fs : FS) (p : FPath) : Option String := flookup fs.files p

/-- `write_text`: create or overwrite the file at `p`. -/
def FS.writeFile (fs : FS) (p : FPath) (c : String) : FS :=
  { fs with files := fset fs.files p c }

/-- All non-empty prefixes of a path, shortest first (the chain of
directories `mkdir(parents=True)` ensures). -/
def pathPrefixes (p : FPath) : List FPath :=
  (List.range p.length).map (fun i => p.take (i + 1))

/-- Add one directory if absent (`exist_ok=True`: re-creating is a no-op,
never an error). -/
def insertDir (dirs : List FPath) (p : FPath) : List FPath :=
  if p ∈ dirs then dirs else p :: dirs

/-- `Path.mkdir(parents=True, exist_ok=True)`. -/
def FS.mkdirp (fs : FS) (p : FPath) : FS :=
  { fs with dirs := (pathPrefixes p).foldl insertDir fs.dirs }

/-- `Path.exists()`: true for a directory or a file at that path. -/
def FS.pathExists (fs : FS) (p : FPath) : Bool :=
  decide (p ∈ fs.dirs) || (fs.fileLookup p).isSome

/-- `shutil.rmtree(root)`: remove the root and everything below it. -/
def FS.rmtree (fs : FS) (root : FPath) : FS :=
  { dirs := fs.dirs.filter (fun q => !(root.isPrefixOf q)),
    files := fs.files.filter (fun qc => !(root.isPrefixOf qc.1)) }

/-- The Python exceptions the embedded code can raise.  `conflict` is the
`ValueError` for an already-existing project directory, `invalidProject`
the `ValueError` for an augment target without an `app/` subtree,
`templateMissing` the `ValueError` raised for a template absent from the
catalog, and `wrapped e` a `RuntimeError` raised with `from e`, carrying
`e` as its cause. -/
inductive PyErr where
  | conflict : PyErr
  | invalidProject : PyErr
  | templateMissing (name : String) : PyErr
  | wrapped (cause : PyErr) : PyErr
deriving DecidableEq

/-- Result of one fallible, state-changing operation: the raised exception
(if any) together with the filesystem when control left the operation. -/
abbrev PRes := Option PyErr × FS

/-- `DB_DEPENDENCIES` from `generator.py`. -/
def DB_DEPENDENCIES : List (String × List String) :=
  [("sqlite", ["aiosqlite==0.21.0"]),
   ("mysql", ["aiomysql==0.2.0", "pymysql==1.1.0"]),
   ("postgresql", ["asyncpg==0.29.0", "psycopg2-binary==2.9.9"])]

/-- Lookup in `DB_DEPENDENCIES` (`dict.get`). -/
def dbDepsLookup : List (String × List String) → String → Option (List String)
  | [], _ => none
  | (k, v) :: rest, key => if k = key then some v else dbDepsLookup rest key

/-- `REDIS_DEPENDENCY` from `generator.py`. -/
def REDIS_DEPENDENCY : String := "redis==7.1.0"

/-- The shape of the `PROJECT_STRUCTURE` configuration dict. -/
structure ProjectStructure where
  apiVersions : List String
  apiDefault : Bool
  layers : List (String × Bool)
  docs : Bool
  logs : Bool
  tests : Bool
  celery : Bool

/-- The `PROJECT_STRUCTURE` constant shipped in `generator.py`; note that
its `"celery"` entry is the literal `False`. -/
def PROJECT_STRUCTURE : ProjectStructure :=
  { apiVersions := ["v1"],
    apiDefault := true,
    layers := [("initializer", true), ("middleware", true), ("models", true),
               ("schemas", true), ("services", true), ("utils", true), ("cache", true)],
    docs := true,
    logs := true,
    tests := true,
    celery := false }

/-- `ProjectGenerator._build_directory_list` over an arbitrary structure
configuration: api default dir, versioned api dirs, enabled layers, the
`docs`/`logs`/`tests` dirs, and `app_celery` gated by
`PROJECT_STRUCTURE["celery"] and self.enable_celery`. -/
def buildDirectoryListWith (ps : ProjectStructure) (enableCelery : Bool) : List String :=
  (if ps.apiDefault then ["app/api/default"] else []) ++
  ps.apiVersions.map (fun v => "app/api/" ++ v) ++
  (ps.layers.filterMap (fun lv => if lv.2 then some ("app/" ++ lv.1) else none)) ++
  (if ps.docs then ["docs"] else []) ++
  (if ps.logs then ["logs"] else []) ++
  (if ps.tests then ["tests"] else []) ++
  (if ps.celery && enableCelery then ["app_celery"] else [])

/-- The constructor arguments of `ProjectGenerator`, plus the result of the
external `shutil.which("uv")` probe consulted by `_should_use_uv`. -/
structure Config where
  projectName : String
  dbType : String
  enableRedis : Bool
  enableCelery : Bool
  outputDir : FPath
  uvAvailable : Bool
deriving DecidableEq

/-- `self.project_path = output_dir / project_name`. -/
def Config.projectPath (cfg : Config) : FPath := cfg.outputDir ++ [cfg.projectName]

/-- `ProjectGenerator._build_directory_list` as shipped (reads the
module-level `PROJECT_STRUCTURE`). -/
def buildDirectoryList (cfg : Config) : List String :=
  buildDirectoryListWith PROJECT_STRUCTURE cfg.enableCelery

/-- An output-mapping table: template name to target relative path and
optional gating predicate over the render context
(`TEMPLATE_MAPPING`'s type). -/
abbrev MappingTable := List (String × String × Option (Ctx → Bool))

/-- Lookup in a mapping table (`TEMPLATE_MAPPING.get`). -/
def mlookup : MappingTable → String → Option (String × Option (Ctx → Bool))
  | [], _ => none
  | (k, v) :: rest, key => if k = key then some v else mlookup rest key

/-- The `TEMPLATE_MAPPING` constant shipped in `generator.py` (every entry's
condition is `None`). -/
def TEMPLATE_MAPPING : MappingTable :=
  [("initializer_init.py", "app/initializer/__init__.py", none),
   ("pydantic_settings_config.py", "app/initializer/_settings.py", none),
   ("initializer_db.py", "app/initializer/_db.py", none),
   ("initializer_log.py", "app/initializer/_log.py", none),
   ("initializer_redis.py", "app/initializer/_redis.py", none),
   ("initializer_snow.py", "app/initializer/_snow.py", none),
   ("initializer_context.py", "app/initializer/context.py", none),
   ("cache_init.py", "app/cache/__init__.py", none),
   ("cache_manager.py", "app/cache/manager.py", none),
   ("middleware_init.py", "app/middleware/__init__.py", none),
   ("middleware_cors.py", "app/middleware/cors.py", none),
   ("middleware_exceptions.py", "app/middleware/exceptions.py", none),
   ("middleware_http.py", "app/middleware/http.py", none),
   ("utils_jwt.py", "app/utils/jwt_util.py", none),
   ("utils_db_async.py", "app/utils/db_async_util.py", none),
   ("utils_api_key.py", "app/utils/api_key_util.py", none),
   ("api_init.py", "app/api/__init__.py", none),
   ("api_dependencies.py", "app/api/dependencies.py", none),
   ("api_exceptions.py", "app/api/exceptions.py", none),
   ("api_responses.py", "app/api/responses.py", none),
   ("api_status.py", "app/api/status.py", none),
   ("api_ping.py", "app/api/default/ping.py", none),
   ("models_init.py", "app/models/__init__.py", none),
   ("schemas_init.py", "app/schemas/__init__.py", none),
   ("unified_router.py", "app/api/unified_router.py", none),
   ("exception_system.py", "app/api/exceptions_enterprise.py", none),
   ("context_logging.py", "app/utils/context_logging.py", none),
   ("logging_fastcrud.py", "app/utils/logging_fastcrud.py", none),
   ("lifespan_manager.py", "app/core/lifespan.py", none)]

/-- `ProjectGenerator._get_template_target_path` over an arbitrary mapping
table: if a mapping exists and its condition is `None` or evaluates true,
return the project-relative target; otherwise (condition false, or no
mapping) return `None`. -/
def getTemplateTargetPathWith (tbl : MappingTable) (projectPath : FPath)
    (name : String) (ctx : Ctx) : Option FPath :=
  match mlookup tbl name with
  | some (target, cond) =>
    match cond with
    | none => some (projectPath ++ splitSlash target)
    | some c => if c ctx then some (projectPath ++ splitSlash target) else none
  | none => none

/-- `_get_template_target_path` as shipped (reads the module-level
`TEMPLATE_MAPPING`). -/
def getTemplateTargetPath (cfg : Config) (name : String) (ctx : Ctx) : Option FPath :=
  getTemplateTargetPathWith TEMPLATE_MAPPING cfg.projectPath name ctx

/-- `ProjectGenerator._validate_template_exists`: raises `ValueError` when
the stem-normalized name is not a key of the loaded catalog. -/
def validateTemplate (eng : TemplateEngine) (name : String) : Option PyErr :=
  if (alookup eng.templates (stripPy name)).isSome then none
  else some (PyErr.templateMissing name)

/-- `ProjectGenerator._render_template`: render under the stem-normalized
name. -/
def renderT (eng : TemplateEngine) (name : String) (ctx : Ctx) : String :=
  eng.render (stripPy name) ctx

/-- The package-marker content `'"""\n"""\n'` written by
`_create_directory_structure`. -/
def markerContent : String := "\"\"\"\n\"\"\"\n"

/-- One iteration of the `_create_directory_structure` loop: create the
directory (parents included, exist-ok) and write the `__init__.py` marker
only when absent. -/
def stepDir (root : FPath) (fs : FS) (d : String) : FS :=
  let dirP := root ++ splitSlash d
  let fs1 := fs.mkdirp dirP
  let marker := dirP ++ ["__init__.py"]
  if (fs1.fileLookup marker).isSome then fs1 else fs1.writeFile marker markerContent

/-- `ProjectGenerator._create_directory_structure`. -/
def createDirectoryStructure (cfg : Config) (fs : FS) : PRes :=
  (none, (buildDirectoryList cfg).foldl (stepDir cfg.projectPath) fs)

/-- `ProjectGenerator._generate_core_files`: `main.py` and
`app/__init__.py`, each write wrapped in a `RuntimeError`-raising handler. -/
def generateCoreFiles (eng : TemplateEngine) (cfg : Config) (fs : FS) : PRes :=
  let ctx : Ctx := [("project_name", cfg.projectName), ("enable_redis", pyBoolStr cfg.enableRedis)]
  match validateTemplate eng "main.py" with
  | some e => (some (PyErr.wrapped e), fs)
  | none =>
    let fs := fs.writeFile (cfg.projectPath ++ ["app", "main.py"]) (renderT eng "main.py" ctx)
    match validateTemplate eng "app_init.py" with
    | some e => (some (PyErr.wrapped e), fs)
    | none =>
      (none, fs.writeFile (cfg.projectPath ++ ["app", "__init__.py"]) (renderT eng "app_init.py" ctx))

/-- Loop body shared by the initializer/middleware/utils phases: for each
template, validate, render, resolve the target through the mapping table
and fall back to the phase's legacy convention-derived path when resolution
yields `None`; a failure raises a `RuntimeError` wrapping the cause. -/
def runMappedFiles (tbl : MappingTable) (eng : TemplateEngine) (cfg : Config)
    (ctx : Ctx) (fallback : String → FPath) : List String → FS → PRes
  | [], fs => (none, fs)
  | name :: rest, fs =>
    match validateTemplate eng name with
    | some e => (some (PyErr.wrapped e), fs)
    | none =>
      let content := renderT eng name ctx
      let fs' :=
        match getTemplateTargetPathWith tbl cfg.projectPath name ctx with
        | some target => fs.writeFile target content
        | none => fs.writeFile (cfg.projectPath ++ fallback name) content
      runMappedFiles tbl eng cfg ctx fallback rest fs'

/-- The file list of `_generate_initializer_files`
(`files.insert(0, "initializer_init.py")` puts the initializer first). -/
def initializerFiles : List String :=
  ["initializer_init.py", "pydantic_settings_config.py", "initializer_db.py",
   "initializer_log.py", "initializer_redis.py", "initializer_snow.py",
   "initializer_context.py"]

/-- The legacy fallback target of `_generate_initializer_files`:
`"__init__.py"` for the with-cache variant, otherwise
`file_template.replace("initializer_", "_")`. -/
def initializerFallback (name : String) : FPath :=
  if name = "initializer_init_with_cache.py" then ["app", "initializer", "__init__.py"]
  else ["app", "initializer", replaceAll name "initializer_" "_"]

/-- The render context of `_generate_initializer_files`. -/
def initializerCtx (cfg : Config) : Ctx :=
  [("project_name", cfg.projectName), ("db_type", cfg.dbType),
   ("enable_redis", pyBoolStr cfg.enableRedis)]

/-- `ProjectGenerator._generate_initializer_files` over an arbitrary
mapping table. -/
def generateInitializerFilesWith (tbl : MappingTable) (eng : TemplateEngine)
    (cfg : Config) (fs : FS) : PRes :=
  runMappedFiles tbl eng cfg (initializerCtx cfg) initializerFallback initializerFiles fs

/-- `ProjectGenerator._generate_initializer_files` as shipped. -/
def generateInitializerFiles (eng : TemplateEngine) (cfg : Config) (fs : FS) : PRes :=
  generateInitializerFilesWith TEMPLATE_MAPPING eng cfg fs

/-- `ProjectGenerator._generate_middleware_files`. -/
def generateMiddlewareFiles (eng : TemplateEngine) (cfg : Config) (fs : FS) : PRes :=
  runMappedFiles TEMPLATE_MAPPING eng cfg [("project_name", cfg.projectName)]
    (fun name => ["app", "middleware", replaceAll name "middleware_" ""])
    ["middleware_init.py", "middleware_cors.py", "middleware_exceptions.py", "middleware_http.py"]
    fs

/-- `ProjectGenerator._generate_utils_files`. -/
def generateUtilsFiles (eng : TemplateEngine) (cfg : Config) (fs : FS) : PRes :=
  runMappedFiles TEMPLATE_MAPPING eng cfg
    [("project_name", cfg.projectName), ("enable_redis", pyBoolStr cfg.enableRedis)]
    (fun name => ["app", "utils", replaceAll name "utils_" ""])
    ["utils_jwt.py", "utils_db_async.py", "utils_api_key.py"]
    fs

/-- `ProjectGenerator._generate_cache_files`: `cache/__init__.py` and
`cache/manager.py` written directly (no mapping lookup), the whole phase
wrapped in a `RuntimeError`-raising handler. -/
def generateCacheFiles (eng : TemplateEngine) (cfg : Config) (fs : FS) : PRes :=
  match validateTemplate eng "cache_init.py" with
  | some e => (some (PyErr.wrapped e), fs)
  | none =>
    let fs := fs.writeFile (cfg.projectPath ++ ["app", "cache", "__init__.py"])
      (renderT eng "cache_init.py" [])
    match validateTemplate eng "cache_manager.py" with
    | some e => (some (PyErr.wrapped e), fs)
    | none =>
      (none, fs.writeFile (cfg.projectPath ++ ["app", "cache", "manager.py"])
        (renderT eng "cache_manager.py" []))

/-- Write one mapped template with an explicit legacy fallback path
(pattern used by the api/schema/enterprise phases:
`target_path = resolve(...); if target_path: write; else: write(fallback)`). -/
def writeMappedOr (eng : TemplateEngine) (cfg : Config) (name : String)
    (renderCtx resolveCtx : Ctx) (fallback : FPath) (fs : FS) : FS :=
  let content := renderT eng name renderCtx
  match getTemplateTargetPathWith TEMPLATE_MAPPING cfg.projectPath name resolveCtx with
  | some target => fs.writeFile target content
  | none => fs.writeFile (cfg.projectPath ++ fallback) content

/-- Sequencing of fallible steps: propagate the first raised exception. -/
def pthen (r : PRes) (k : FS → PRes) : PRes :=
  match r with
  | (some e, fs) => (some e, fs)
  | (none, fs) => k fs

/-- An enclosing `try/except` that re-raises as `RuntimeError(...) from e`. -/
def pwrap (r : PRes) : PRes :=
  match r with
  | (some e, fs) => (some (PyErr.wrapped e), fs)
  | ok => ok

/-- Validate a template, then render it and write directly to `target`
(pattern of the test/docs/misc phases, which bypass the mapping table). -/
def writeTemplateFile (eng : TemplateEngine) (name : String) (ctx : Ctx)
    (target : FPath) (fs : FS) : PRes :=
  match validateTemplate eng name with
  | some e => (some e, fs)
  | none => (none, fs.writeFile target (renderT eng name ctx))

/-- Validate a template, then render and write via the mapping table with a
legacy fallback path. -/
def writeMappedTemplate (eng : TemplateEngine) (cfg : Config) (name : String)
    (renderCtx resolveCtx : Ctx) (fallback : FPath) (fs : FS) : PRes :=
  match validateTemplate eng name with
  | some e => (some e, fs)
  | none => (none, writeMappedOr eng cfg name renderCtx resolveCtx fallback fs)

/-- `ProjectGenerator._generate_api_example`: routing init, dependencies, a
three-file loop (whose failures are wrapped once by the inner handler), and
the default ping endpoint; the whole phase re-wraps any failure.  Note the
source resolves `api_dependencies.py` with a context that lacks
`enable_redis` even though it renders with it. -/
def generateApiExample (eng : TemplateEngine) (cfg : Config) (fs : FS) : PRes :=
  let ctxP : Ctx := [("project_name", cfg.projectName)]
  pwrap
    (pthen (writeMappedTemplate eng cfg "api_init.py" ctxP ctxP ["app", "api", "__init__.py"] fs)
      (fun fs =>
        pthen
          (writeMappedTemplate eng cfg "api_dependencies.py"
            [("project_name", cfg.projectName), ("enable_redis", pyBoolStr cfg.enableRedis)]
            ctxP ["app", "api", "dependencies.py"] fs)
          (fun fs =>
            pthen
              (runMappedFiles TEMPLATE_MAPPING eng cfg ctxP
                (fun name => ["app", "api", replaceAll name "api_" ""])
                ["api_exceptions.py", "api_responses.py", "api_status.py"] fs)
              (fun fs =>
                writeMappedTemplate eng cfg "api_ping.py" [] [] ["app", "api", "default", "ping.py"] fs))))

/-- `ProjectGenerator._generate_service_example`: writes a literal
`services/__init__.py`, no template involved, cannot fail. -/
def generateServiceExample (cfg : Config) (fs : FS) : PRes :=
  (none, fs.writeFile (cfg.projectPath ++ ["app", "services", "__init__.py"])
    "\"\"\"\n业务逻辑层\n\"\"\"\n")

/-- `ProjectGenerator._generate_model_example`: renders `models_init.py`
WITHOUT a preceding `_validate_template_exists` call and writes the result
to `models/__init__.py`. -/
def generateModelExample (eng : TemplateEngine) (cfg : Config) (fs : FS) : PRes :=
  (none, fs.writeFile (cfg.projectPath ++ ["app", "models", "__init__.py"])
    (renderT eng "models_init.py" []))

/-- `ProjectGenerator._generate_schema_example` (no enclosing handler: a
validation failure propagates unwrapped). -/
def generateSchemaExample (eng : TemplateEngine) (cfg : Config) (fs : FS) : PRes :=
  match validateTemplate eng "schemas_init.py" with
  | some e => (some e, fs)
  | none => (none, writeMappedOr eng cfg "schemas_init.py" [] [] ["app", "schemas", "__init__.py"] fs)

/-- `ProjectGenerator._generate_enterprise_features`. -/
def generateEnterpriseFeatures (eng : TemplateEngine) (cfg : Config) (fs : FS) : PRes :=
  let ctx : Ctx := [("project_name", cfg.projectName), ("enable_redis", pyBoolStr cfg.enableRedis)]
  pwrap
    (pthen (writeMappedTemplate eng cfg "unified_router.py" ctx ctx ["app", "api", "unified_router.py"] fs)
      (fun fs =>
        pthen (writeMappedTemplate eng cfg "exception_system.py" ctx ctx ["app", "api", "exceptions_enterprise.py"] fs)
          (fun fs =>
            pthen (writeMappedTemplate eng cfg "context_logging.py" ctx ctx ["app", "utils", "context_logging.py"] fs)
              (fun fs =>
                pthen (writeMappedTemplate eng cfg "logging_fastcrud.py" ctx ctx ["app", "utils", "logging_fastcrud.py"] fs)
                  (fun fs =>
                    pthen
                      (writeMappedTemplate eng cfg "pydantic_settings_config.py" ctx ctx
                        ["app", "initializer", "_settings.py"] fs)
                      (fun fs =>
                        let fs :=
                          (fs.mkdirp (cfg.projectPath ++ ["app", "core"])).writeFile
                            (cfg.projectPath ++ ["app", "core", "__init__.py"]) "\"\"\"\n核心模块\n\"\"\"\n"
                        writeMappedTemplate eng cfg "lifespan_manager.py" ctx ctx ["app", "core", "lifespan.py"] fs))))))

/-- `ProjectGenerator._generate_test_files`: conftest, the example test,
pytest/codegen/package configs, `uv.toml` only when the external `uv` probe
succeeded, then `.env.example` under its own handler. -/
def generateTestFiles (eng : TemplateEngine) (cfg : Config) (fs : FS) : PRes :=
  let ctx : Ctx :=
    [("project_name", cfg.projectName), ("db_type", cfg.dbType),
     ("enable_redis", pyBoolStr cfg.enableRedis), ("enable_celery", pyBoolStr cfg.enableCelery)]
  pthen
    (pwrap
      (pthen (writeTemplateFile eng "conftest.py" [] (cfg.projectPath ++ ["tests", "conftest.py"]) fs)
        (fun fs =>
          pthen (writeTemplateFile eng "test_example.py" [] (cfg.projectPath ++ ["tests", "test_example.py"]) fs)
            (fun fs =>
              pthen (writeTemplateFile eng "pytest.ini" [] (cfg.projectPath ++ ["pytest.ini"]) fs)
                (fun fs =>
                  pthen (writeTemplateFile eng "generate_code.js" [] (cfg.projectPath ++ ["generate_code.js"]) fs)
                    (fun fs =>
                      pthen (writeTemplateFile eng "package.json" [] (cfg.projectPath ++ ["package.json"]) fs)
                        (fun fs =>
                          if cfg.uvAvailable then
                            writeTemplateFile eng "uv.toml" ctx (cfg.projectPath ++ ["uv.toml"]) fs
                          else (none, fs))))))))
    (fun fs => pwrap (writeTemplateFile eng "env_example" [] (cfg.projectPath ++ [".env.example"]) fs))

/-- The body of `ProjectGenerator._generate_docs_files` (the statements
inside its `try`). -/
def generateDocsFilesBody (eng : TemplateEngine) (cfg : Config) (fs : FS) : PRes :=
  pthen (writeTemplateFile eng "docs_api.md" [] (cfg.projectPath ++ ["docs", "api.md"]) fs)
    (fun fs =>
      pthen (writeTemplateFile eng "docs_development.md" [] (cfg.projectPath ++ ["docs", "development.md"]) fs)
        (fun fs =>
          writeTemplateFile eng "docs_deployment.md" [] (cfg.projectPath ++ ["docs", "deployment.md"]) fs))

/-- `ProjectGenerator._generate_docs_files`: its `except` clause only logs a
warning, so any exception raised by the body is swallowed and the phase
reports success. -/
def generateDocsFiles (eng : TemplateEngine) (cfg : Config) (fs : FS) : PRes :=
  match generateDocsFilesBody eng cfg fs with
  | (some _, fs') => (none, fs')
  | ok => ok

/-- `ProjectGenerator._generate_other_files`: requirements (with the
db/redis dependency lines joined into the context), pyproject, runserver,
README, ignore files, Docker files. -/
def generateOtherFiles (eng : TemplateEngine) (cfg : Config) (fs : FS) : PRes :=
  let dbDeps :=
    joinNL ((dbDepsLookup DB_DEPENDENCIES cfg.dbType).getD
      ((dbDepsLookup DB_DEPENDENCIES "sqlite").getD []))
  let redisDeps := if cfg.enableRedis then REDIS_DEPENDENCY else ""
  let ctx : Ctx :=
    [("project_name", cfg.projectName), ("db_type", cfg.dbType),
     ("enable_redis", pyBoolStr cfg.enableRedis), ("enable_celery", pyBoolStr cfg.enableCelery),
     ("redis_deps", redisDeps), ("db_deps", dbDeps)]
  pwrap
    (pthen (writeTemplateFile eng "requirements.txt" ctx (cfg.projectPath ++ ["requirements.txt"]) fs)
      (fun fs =>
        pthen (writeTemplateFile eng "pyproject.toml" ctx (cfg.projectPath ++ ["pyproject.toml"]) fs)
          (fun fs =>
            pthen (writeTemplateFile eng "runserver.py" [] (cfg.projectPath ++ ["runserver.py"]) fs)
              (fun fs =>
                pthen (writeTemplateFile eng "README.md" ctx (cfg.projectPath ++ ["README.md"]) fs)
                  (fun fs =>
                    pthen (writeTemplateFile eng "gitignore" [] (cfg.projectPath ++ [".gitignore"]) fs)
                      (fun fs =>
                        pthen (writeTemplateFile eng "dockerignore" [] (cfg.projectPath ++ [".dockerignore"]) fs)
                          (fun fs =>
                            pthen (writeTemplateFile eng "Dockerfile" ctx (cfg.projectPath ++ ["Dockerfile"]) fs)
                              (fun fs =>
                                writeTemplateFile eng "docker_compose.yaml" ctx
                                  (cfg.projectPath ++ ["docker-compose.yaml"]) fs))))))))

/-- The ordered phase list of `ProjectGenerator.generate`'s `try` body. -/
def generatePhases (eng : TemplateEngine) (cfg : Config) : List (FS → PRes) :=
  [createDirectoryStructure cfg, generateCoreFiles eng cfg, generateInitializerFiles eng cfg,
   generateMiddlewareFiles eng cfg, generateUtilsFiles eng cfg, generateCacheFiles eng cfg,
   generateApiExample eng cfg, generateServiceExample cfg, generateModelExample eng cfg,
   generateSchemaExample eng cfg, generateEnterpriseFeatures eng cfg, generateTestFiles eng cfg,
   generateDocsFiles eng cfg, generateOtherFiles eng cfg]

/-- Run phases strictly in order, stopping at the first raised exception. -/
def runPhases : List (FS → PRes) → FS → PRes
  | [], fs => (none, fs)
  | p :: ps, fs =>
    match p fs with
    | (some e, fs') => (some e, fs')
    | (none, fs') => runPhases ps fs'

/-- `ProjectGenerator.generate`: `ValueError` if the project path already
exists (checked before the `try`, so no rollback and no wrapping); otherwise
create the root and run the phases; on any exception delete the root
recursively when it still exists (cleanup failures are only logged) and
re-raise `RuntimeError(...) from e`. -/
def generate (eng : TemplateEngine) (cfg : Config) (fs : FS) : PRes :=
  if fs.pathExists cfg.projectPath then (some PyErr.conflict, fs)
  else
    match runPhases (generatePhases eng cfg) (fs.mkdirp cfg.projectPath) with
    | (none, fs') => (none, fs')
    | (some e, fs') =>
      (some (PyErr.wrapped e),
       if fs'.pathExists cfg.projectPath then fs'.rmtree cfg.projectPath else fs')

/-- `ModuleGenerator._get_context`: the raw module name and the identifier
derived with `str.capitalize()`. -/
def moduleContext (moduleName : String) : Ctx :=
  [("module_name", moduleName), ("ModuleName", pyCapitalize moduleName)]

/-- `ModuleGenerator.generate`: `ValueError` when the target project lacks
`app/` (checked before anything is created); then the versioned api dir is
created and the four artifacts (api route, service, model, schema) are
rendered from their fixed templates and written, each preceded by a raw
membership check of the template catalog; errors propagate unwrapped
(`raise` re-raises, no rollback). -/
def moduleGenerate (eng : TemplateEngine) (moduleName version : String)
    (projectPath : FPath) (fs : FS) : PRes :=
  if fs.pathExists (projectPath ++ ["app"]) = false then (some PyErr.invalidProject, fs)
  else
    let apiDir := projectPath ++ ["app", "api", version]
    let fs := fs.mkdirp apiDir
    match alookup eng.templates "api_module" with
    | none => (some (PyErr.templateMissing "api_module"), fs)
    | some _ =>
      let fs := fs.writeFile (apiDir ++ [moduleName ++ ".py"])
        (eng.render "api_module" (moduleContext moduleName))
      match alookup eng.templates "service_module" with
      | none => (some (PyErr.templateMissing "service_module"), fs)
      | some _ =>
        let fs := (fs.mkdirp (projectPath ++ ["app", "services"])).writeFile
          (projectPath ++ ["app", "services", moduleName ++ ".py"])
          (eng.render "service_module" (moduleContext moduleName))
        match alookup eng.templates "model_module" with
        | none => (some (PyErr.templateMissing "model_module"), fs)
        | some _ =>
          let fs := (fs.mkdirp (projectPath ++ ["app", "models"])).writeFile
            (projectPath ++ ["app", "models", moduleName ++ ".py"])
            (eng.render "model_module" (moduleContext moduleName))
          match alookup eng.templates "schema_module" with
          | none => (some (PyErr.templateMissing "schema_module"), fs)
          | some _ =>
            (none, (fs.mkdirp (projectPath ++ ["app", "schemas"])).writeFile
              (projectPath ++ ["app", "schemas", moduleName ++ ".py"])
              (eng.render "schema_module" (moduleContext moduleName)))

/-- A complete template catalog for concrete runs: every name the generator
validates (stem-normalized), each with the one-character body `"x"`; it
deliberately omits `models_init`, which no phase validates. -/
def catalogBase : List (String × String) :=
  [("main", "x"), ("app_init", "x"), ("initializer_init", "x"),
   ("pydantic_settings_config", "x"), ("initializer_db", "x"), ("initializer_log", "x"),
   ("initializer_redis", "x"), ("initializer_snow", "x"), ("initializer_context", "x"),
   ("middleware_init", "x"), ("middleware_cors", "x"), ("middleware_exceptions", "x"),
   ("middleware_http", "x"), ("utils_jwt", "x"), ("utils_db_async", "x"),
   ("utils_api_key", "x"), ("cache_init", "x"), ("cache_manager", "x"),
   ("api_init", "x"), ("api_dependencies", "x"), ("api_exceptions", "x"),
   ("api_responses", "x"), ("api_status", "x"), ("api_ping", "x"),
   ("schemas_init", "x"), ("unified_router", "x"), ("exception_system", "x"),
   ("context_logging", "x"), ("logging_fastcrud", "x"), ("lifespan_manager", "x"),
   ("conftest", "x"), ("test_example", "x"), ("pytest.ini", "x"),
   ("generate_code.js", "x"), ("package.json", "x"), ("env_example", "x"),
   ("docs_api.md", "x"), ("docs_development.md", "x"), ("docs_deployment.md", "x"),
   ("requirements.txt", "x"), ("pyproject.toml", "x"), ("runserver", "x"),
   ("README.md", "x"), ("gitignore", "x"), ("dockerignore", "x"),
   ("Dockerfile", "x"), ("docker_compose.yaml", "x")]

/-- Engine loaded with the complete catalog; empty inline fallback. -/
def engBase : TemplateEngine := ⟨catalogBase, []⟩

/-- Engine whose catalog lacks the three docs templates. -/
def engNoDocs : TemplateEngine :=
  ⟨catalogBase.filter (fun kv =>
    !(kv.1 == "docs_api.md" || kv.1 == "docs_development.md" || kv.1 == "docs_deployment.md")), []⟩

/-- Engine whose catalog lacks `main`. -/
def engNoMain : TemplateEngine := ⟨catalogBase.filter (fun kv => !(kv.1 == "main")), []⟩

/-- The example scenario's configuration: `shopapi`, postgresql, redis on,
celery off, current directory, no `uv`. -/
def cfg1 : Config := ⟨"shopapi", "postgresql", true, false, [], false⟩

/-- `cfg1` with the celery feature flag enabled. -/
def cfg1Celery : Config := ⟨"shopapi", "postgresql", true, true, [], false⟩

/-- The empty output filesystem. -/
def fs0 : FS := ⟨[], []⟩

/-- The package-marker path `stepDir` manages for directory `d`. -/
def markerPath (root : FPath) (d : String) : FPath :=
  (root ++ splitSlash d) ++ ["__init__.py"]

/-- The filesystem produced by a successful `ModuleGenerator.generate` run:
the versioned api directory plus the four rendered artifacts, written in
source order. -/
def moduleResultFS (eng : TemplateEngine) (n v : String) (root : FPath) (fs : FS) : FS :=
  (((((((fs.mkdirp (root ++ ["app", "api", v])).writeFile
    ((root ++ ["app", "api", v]) ++ [n ++ ".py"])
    (eng.render "api_module" (moduleContext n))).mkdirp
    (root ++ ["app", "services"])).writeFile
    (root ++ ["app", "services", n ++ ".py"])
    (eng.render "service_module" (moduleContext n))).mkdirp
    (root ++ ["app", "models"])).writeFile
    (root ++ ["app", "models", n ++ ".py"])
    (eng.render "model_module" (moduleContext n))).mkdirp
    (root ++ ["app", "schemas"])).writeFile
    (root ++ ["app", "schemas", n ++ ".py"])
    (eng.render "schema_module" (moduleContext n))

/-- Mapping table with a single predicate-gated entry whose predicate is
constantly false (the engine must work for any mapping table). -/
def tblFalse : MappingTable :=
  [("initializer_db.py", "app/initializer/_db.py", some (fun _ => false))]

/-- Catalog holding exactly the initializer-phase templates. -/
def engInit : TemplateEngine :=
  ⟨[("initializer_init", "x"), ("pydantic_settings_config", "x"), ("initializer_db", "x"),
    ("initializer_log", "x"), ("initializer_redis", "x"), ("initializer_snow", "x"),
    ("initializer_context", "x")], []⟩

/-- Catalog holding exactly the four module-augmentor templates. -/
def engM4 : TemplateEngine :=
  ⟨[("api_module", "r ${ModuleName}"), ("service_module", "s"), ("model_module", "m"),
    ("schema_module", "c")], []⟩

/-- An existing generated project root: `proj/` with its `app/` subtree. -/
def fsP : FS := ⟨[["proj"], ["proj", "app"]], []⟩

/-- A state where the `docs` package marker already exists with content
"keep". -/
def fsDocs : FS := ⟨[], [(["shopapi", "docs", "__init__.py"], "keep")]⟩

set_option maxRecDepth 10000

theorem spanId_snd_length_le : ∀ l : List Char, (spanId l).2.length ≤ l.length := by
  intro l
  induction l with
  | nil => simp [spanId]
  | cons c rest ih =>
    simp only [spanId]
    split
    · simpa using Nat.le_succ_of_le ih
    · simp

theorem substAuxF_congr (ctx : Ctx) :
    ∀ f1 f2 l, l.length ≤ f1 → l.length ≤ f2 → substAuxF ctx f1 l = substAuxF ctx f2 l := by
  intro f1
  induction f1 with
  | zero =>
    intro f2 l h1 _
    have hl : l = [] := List.eq_nil_of_length_eq_zero (Nat.le_zero.mp h1)
    subst hl
    cases f2 <;> simp [substAuxF]
  | succ f ih =>
    intro f2 l h1 h2
    cases f2 with
    | zero =>
      have hl : l = [] := List.eq_nil_of_length_eq_zero (Nat.le_zero.mp h2)
      subst hl
      simp [substAuxF]
    | succ g =>
      cases l with
      | nil => simp [substAuxF]
      | cons c rest =>
        simp only [List.length_cons] at h1 h2
        simp only [substAuxF]
        by_cases hc : c = '$'
        · simp only [if_pos hc]
          cases rest with
          | nil => rfl
          | cons d rest' =>
            simp only [List.length_cons] at h1 h2
            dsimp only
            by_cases hd : d = '$'
            · simp only [if_pos hd]
              rw [ih g rest' (by omega) (by omega)]
            · simp only [if_neg hd]
              by_cases hob : d = openBrace
              · simp only [if_pos hob]
                subst hob
                have hsp := spanId_snd_length_le rest'
                have htl : (spanId rest').2.tail.length ≤ (spanId rest').2.length := by
                  cases hx : (spanId rest').2 <;> simp
                by_cases hvalid : ((spanId rest').2.headD 'x' = closeBrace ∧ idOk (spanId rest').1 = true)
                · simp only [if_pos hvalid]
                  cases halk : alookup ctx ⟨(spanId rest').1⟩ with
                  | some v => rw [ih g (spanId rest').2.tail (by omega) (by omega)]
                  | none => rw [ih g (spanId rest').2.tail (by omega) (by omega)]
                · simp only [if_neg hvalid]
                  rw [ih g (openBrace :: rest') (by simp; omega) (by simp; omega)]
              · simp only [if_neg hob]
                by_cases hid : isIdStart d = true
                · simp only [if_pos hid]
                  have hsp := spanId_snd_length_le (d :: rest')
                  simp only [List.length_cons] at hsp
                  cases halk : alookup ctx ⟨(spanId (d :: rest')).1⟩ with
                  | some v => rw [ih g (spanId (d :: rest')).2 (by omega) (by omega)]
                  | none => rw [ih g (spanId (d :: rest')).2 (by omega) (by omega)]
                · simp only [if_neg hid]
                  rw [ih g (d :: rest') (by simp; omega) (by simp; omega)]
        · simp only [if_neg hc]
          rw [ih g rest (by omega) (by omega)]

theorem substAux_fuel (ctx : Ctx) (f : Nat) (l : List Char) (h : l.length ≤ f) :
    substAuxF ctx f l = substAux ctx l :=
  substAuxF_congr ctx f l.length l h le_rfl

theorem isPrefixOf_refl {α : Type} [BEq α] [LawfulBEq α] (l : List α) : l.isPrefixOf l = true := by
  induction l with
  | nil => rfl
  | cons a rest ih => simp [List.isPrefixOf, ih]

theorem flookup_fset_self (l : List (FPath × String)) (p : FPath) (c : String) :
    flookup (fset l p c) p = some c := by
  induction l with
  | nil => simp [fset, flookup]
  | cons qd rest ih =>
    obtain ⟨q, d⟩ := qd
    by_cases hq : q = p
    · simp [fset, hq, flookup]
    · simp [fset, hq, flookup, ih]

theorem flookup_fset_ne (l : List (FPath × String)) (p q : FPath) (c : String) (h : q ≠ p) :
    flookup (fset l q c) p = flookup l p := by
  induction l with
  | nil => simp [fset, flookup, h]
  | cons rd rest ih =>
    obtain ⟨r, d⟩ := rd
    by_cases hr : r = q
    · simp [fset, hr, flookup, h]
    · by_cases hrp : r = p
      · subst hrp
        simp [fset, flookup, hr]
      · simp [fset, hr, flookup, hrp, ih]

theorem fset_eq_self (l : List (FPath × String)) (p : FPath) (c : String)
    (h : flookup l p = some c) : fset l p c = l := by
  induction l with
  | nil => simp [flookup] at h
  | cons qd rest ih =>
    obtain ⟨q, d⟩ := qd
    by_cases hq : q = p
    · subst hq
      simp [flookup] at h
      simp [fset, h]
    · simp [flookup, hq] at h
      simp [fset, hq, ih h]

theorem flookup_isSome_fset (l : List (FPath × String)) (p q : FPath) (c : String)
    (h : (flookup l p).isSome = true) : (flookup (fset l q c) p).isSome = true := by
  by_cases hq : q = p
  · subst hq
    simp [flookup_fset_self]
  · rwa [flookup_fset_ne l p q c hq]

theorem fileLookup_writeFile_self (fs : FS) (p : FPath) (c : String) :
    (fs.writeFile p c).fileLookup p = some c := flookup_fset_self fs.files p c

theorem fileLookup_writeFile_ne (fs : FS) (p q : FPath) (c : String) (h : q ≠ p) :
    (fs.writeFile q c).fileLookup p = fs.fileLookup p := flookup_fset_ne fs.files p q c h

theorem fileLookup_mkdirp (fs : FS) (p q : FPath) :
    (fs.mkdirp q).fileLookup p = fs.fileLookup p := rfl

theorem dirs_writeFile (fs : FS) (p : FPath) (c : String) :
    (fs.writeFile p c).dirs = fs.dirs := rfl

theorem writeFile_eq_self (fs : FS) (p : FPath) (c : String)
    (h : fs.fileLookup p = some c) : fs.writeFile p c = fs := by
  show ({ fs with files := fset fs.files p c } : FS) = fs
  rw [fset_eq_self fs.files p c h]

theorem mem_foldl_insertDir_of_mem (l : List FPath) (dirs : List FPath) (p : FPath)
    (h : p ∈ dirs) : p ∈ l.foldl insertDir dirs := by
  induction l generalizing dirs with
  | nil => simpa using h
  | cons a rest ih =>
    simp only [List.foldl_cons]
    apply ih
    by_cases ha : a ∈ dirs
    · simpa [insertDir, ha] using h
    · simp [insertDir, ha, h]

theorem mem_foldl_insertDir_of_mem_list (l : List FPath) (dirs : List FPath) (p : FPath)
    (h : p ∈ l) : p ∈ l.foldl insertDir dirs := by
  induction l generalizing dirs with
  | nil => simp at h
  | cons a rest ih =>
    simp only [List.foldl_cons]
    rcases List.mem_cons.mp h with h1 | h2
    · subst h1
      apply mem_foldl_insertDir_of_mem
      by_cases ha : p ∈ dirs
      · simp [insertDir, ha]
      · simp [insertDir, ha]
    · exact ih _ h2

theorem mem_dirs_mkdirp (fs : FS) (p q : FPath) (h : p ∈ fs.dirs) :
    p ∈ (fs.mkdirp q).dirs := mem_foldl_insertDir_of_mem _ fs.dirs p h

theorem mem_prefixes_mkdirp (fs : FS) (p q : FPath) (h : q ∈ pathPrefixes p) :
    q ∈ (fs.mkdirp p).dirs := mem_foldl_insertDir_of_mem_list _ fs.dirs q h

theorem self_mem_pathPrefixes (p : FPath) (h : p ≠ []) : p ∈ pathPrefixes p := by
  have hl : 0 < p.length := List.length_pos.mpr h
  have : p.take (p.length - 1 + 1) = p := by
    have : p.length - 1 + 1 = p.length := by omega
    rw [this, List.take_length]
  refine List.mem_map.mpr ⟨p.length - 1, ?_, this⟩
  simp
  omega

theorem foldl_insertDir_eq_self (l : List FPath) (dirs : List FPath)
    (h : ∀ q ∈ l, q ∈ dirs) : l.foldl insertDir dirs = dirs := by
  induction l with
  | nil => rfl
  | cons a rest ih =>
    simp only [List.foldl_cons]
    have ha : a ∈ dirs := h a (by simp)
    rw [show insertDir dirs a = dirs from by simp [insertDir, ha]]
    exact ih (fun q hq => h q (by simp [hq]))

theorem mkdirp_eq_self (fs : FS) (p : FPath) (h : ∀ q ∈ pathPrefixes p, q ∈ fs.dirs) :
    fs.mkdirp p = fs := by
  show ({ fs with dirs := (pathPrefixes p).foldl insertDir fs.dirs } : FS) = fs
  rw [foldl_insertDir_eq_self _ _ h]

theorem pathExists_writeFile (fs : FS) (p q : FPath) (c : String)
    (h : fs.pathExists p = true) : (fs.writeFile q c).pathExists p = true := by
  simp only [FS.pathExists, Bool.or_eq_true] at h ⊢
  rcases h with h1 | h2
  · exact Or.inl h1
  · exact Or.inr (flookup_isSome_fset fs.files p q c h2)

theorem pathExists_mkdirp (fs : FS) (p q : FPath)
    (h : fs.pathExists p = true) : (fs.mkdirp q).pathExists p = true := by
  simp only [FS.pathExists, Bool.or_eq_true] at h ⊢
  rcases h with h1 | h2
  · refine Or.inl ?_
    rw [decide_eq_true_eq] at h1 ⊢
    exact mem_dirs_mkdirp fs p q h1
  · exact Or.inr h2

theorem flookup_filter_notPrefix (l : List (FPath × String)) (root : FPath) :
    flookup (l.filter (fun qc => !(root.isPrefixOf qc.1))) root = none := by
  induction l with
  | nil => simp [flookup]
  | cons qd rest ih =>
    obtain ⟨q, d⟩ := qd
    by_cases hq : root.isPrefixOf q
    · simp [List.filter, hq, ih]
    · have hne : q ≠ root := by
        intro he
        subst he
        exact hq (isPrefixOf_refl q)
      simp [List.filter, hq, flookup, hne, ih]

theorem rmtree_not_pathExists (fs : FS) (root : FPath) :
    (fs.rmtree root).pathExists root = false := by
  simp only [FS.rmtree, FS.pathExists, FS.fileLookup]
  have h1 : root ∉ fs.dirs.filter (fun q => !(root.isPrefixOf q)) := by
    intro hmem
    have := List.of_mem_filter hmem
    simp [isPrefixOf_refl] at this
  have h2 := flookup_filter_notPrefix fs.files root
  simp [h1, h2]

theorem buildDirectoryList_eq (cfg : Config) :
    buildDirectoryList cfg =
      ["app/api/default", "app/api/v1", "app/initializer", "app/middleware", "app/models",
       "app/schemas", "app/services", "app/utils", "app/cache", "docs", "logs", "tests"] := rfl

theorem splitSlashAux_ne_nil : ∀ (l acc : List Char), splitSlashAux l acc ≠ [] := by
  intro l
  induction l with
  | nil => intro acc; simp [splitSlashAux]
  | cons c rest ih =>
    intro acc
    simp only [splitSlashAux]
    split
    · simp
    · exact ih _

theorem splitSlash_ne_nil (s : String) : splitSlash s ≠ [] := splitSlashAux_ne_nil s.data []

theorem markerPath_inj (root : FPath) (a b : String)
    (h : markerPath root a = markerPath root b) : splitSlash a = splitSlash b := by
  unfold markerPath at h
  have h1 := List.append_cancel_right h
  exact List.append_cancel_left h1

theorem stepDir_fileLookup_ne (root : FPath) (fs : FS) (d : String) (p : FPath)
    (h : p ≠ markerPath root d) : (stepDir root fs d).fileLookup p = fs.fileLookup p := by
  unfold markerPath at h
  simp only [stepDir]
  split
  · exact fileLookup_mkdirp fs p _
  · rw [fileLookup_writeFile_ne _ _ _ _ (fun he => h he.symm)]
    exact fileLookup_mkdirp fs p _

theorem stepDir_marker (root : FPath) (fs : FS) (d : String) :
    (stepDir root fs d).fileLookup (markerPath root d)
      = some ((fs.fileLookup (markerPath root d)).getD markerContent) := by
  simp only [stepDir, markerPath]
  split
  · rename_i hif
    rw [fileLookup_mkdirp] at hif ⊢
    obtain ⟨c, hc⟩ := Option.isSome_iff_exists.mp hif
    rw [hc]
    rfl
  · rename_i hif
    rw [fileLookup_mkdirp] at hif
    rw [fileLookup_writeFile_self]
    have : fs.fileLookup ((root ++ splitSlash d) ++ ["__init__.py"]) = none := by
      cases hx : fs.fileLookup ((root ++ splitSlash d) ++ ["__init__.py"]) with
      | none => rfl
      | some c => rw [hx] at hif; simp at hif
    rw [this]
    rfl

theorem stepDir_dir_mem (root : FPath) (fs : FS) (d : String) :
    (root ++ splitSlash d) ∈ (stepDir root fs d).dirs := by
  have hne : (root ++ splitSlash d) ≠ [] := by
    intro he
    exact splitSlash_ne_nil d (List.append_eq_nil.mp he).2
  simp only [stepDir]
  split
  · exact mem_prefixes_mkdirp fs _ _ (self_mem_pathPrefixes _ hne)
  · rw [show ∀ fs2 : FS, (fs2.writeFile ((root ++ splitSlash d) ++ ["__init__.py"]) markerContent).dirs = fs2.dirs from fun fs2 => rfl]
    exact mem_prefixes_mkdirp fs _ _ (self_mem_pathPrefixes _ hne)

theorem stepDir_dirs_mono (root : FPath) (fs : FS) (d : String) (p : FPath)
    (h : p ∈ fs.dirs) : p ∈ (stepDir root fs d).dirs := by
  simp only [stepDir]
  split
  · exact mem_dirs_mkdirp fs p _ h
  · exact mem_dirs_mkdirp fs p _ h

theorem foldl_stepDir_fileLookup_ne (root : FPath) :
    ∀ (ds : List String) (fs : FS) (p : FPath), (∀ d ∈ ds, p ≠ markerPath root d) →
      (ds.foldl (stepDir root) fs).fileLookup p = fs.fileLookup p := by
  intro ds
  induction ds with
  | nil => intro fs p _; rfl
  | cons e rest ih =>
    intro fs p h
    simp only [List.foldl_cons]
    rw [ih _ p (fun d hd => h d (by simp [hd]))]
    exact stepDir_fileLookup_ne root fs e p (h e (by simp))

theorem foldl_stepDir_dirs_mono (root : FPath) :
    ∀ (ds : List String) (fs : FS) (p : FPath), p ∈ fs.dirs →
      p ∈ (ds.foldl (stepDir root) fs).dirs := by
  intro ds
  induction ds with
  | nil => intro fs p h; exact h
  | cons e rest ih =>
    intro fs p h
    exact ih _ p (stepDir_dirs_mono root fs e p h)

theorem foldl_stepDir_spec (root : FPath) :
    ∀ (ds : List String) (fs : FS) (d : String), d ∈ ds →
      List.Pairwise (fun a b => splitSlash a ≠ splitSlash b) ds →
      ((ds.foldl (stepDir root) fs).fileLookup (markerPath root d)
          = some ((fs.fileLookup (markerPath root d)).getD markerContent))
        ∧ (root ++ splitSlash d) ∈ (ds.foldl (stepDir root) fs).dirs := by
  intro ds
  induction ds with
  | nil => intro fs d hd; simp at hd
  | cons e rest ih =>
    intro fs d hd hpw
    obtain ⟨hhead, hpwrest⟩ := List.pairwise_cons.mp hpw
    simp only [List.foldl_cons]
    rcases List.mem_cons.mp hd with rfl | hdrest
    · constructor
      · rw [foldl_stepDir_fileLookup_ne root rest _ _ (fun d' hd' he => hhead d' hd' (markerPath_inj root d d' he))]
        exact stepDir_marker root fs d
      · exact foldl_stepDir_dirs_mono root rest _ _ (stepDir_dir_mem root fs d)
    · have hres := ih (stepDir root fs e) d hdrest hpwrest
      rwa [stepDir_fileLookup_ne root fs e (markerPath root d)
        (fun he => hhead d hdrest (markerPath_inj root d e he).symm)] at hres

theorem moduleGenerate_success (eng : TemplateEngine) (n v : String) (root : FPath)
    (fs fs' : FS) (h : moduleGenerate eng n v root fs = (none, fs')) :
    fs.pathExists (root ++ ["app"]) = true
    ∧ (alookup eng.templates "api_module").isSome = true
    ∧ (alookup eng.templates "service_module").isSome = true
    ∧ (alookup eng.templates "model_module").isSome = true
    ∧ (alookup eng.templates "schema_module").isSome = true
    ∧ fs' = moduleResultFS eng n v root fs := by
  unfold moduleGenerate at h
  split at h
  · simp at h
  · rename_i hcond
    have hex : fs.pathExists (root ++ ["app"]) = true := by
      revert hcond
      cases fs.pathExists (root ++ ["app"]) <;> simp
    cases h1 : alookup eng.templates "api_module" with
    | none => rw [h1] at h; simp at h
    | some t1 =>
      rw [h1] at h
      cases h2 : alookup eng.templates "service_module" with
      | none => rw [h2] at h; simp at h
      | some t2 =>
        rw [h2] at h
        cases h3 : alookup eng.templates "model_module" with
        | none => rw [h3] at h; simp at h
        | some t3 =>
          rw [h3] at h
          cases h4 : alookup eng.templates "schema_module" with
          | none => rw [h4] at h; simp at h
          | some t4 =>
            rw [h4] at h
            simp only [Prod.mk.injEq] at h
            exact ⟨hex, by simp [h1], by simp [h2], by simp [h3], by simp [h4], h.2.symm⟩

theorem append_ne_of_ne (root : FPath) (l1 l2 : List String) (h : l1 ≠ l2) :
    root ++ l1 ≠ root ++ l2 := fun he => h (List.append_cancel_left he)

theorem ne_api_file (root : FPath) (n v x : String) :
    root ++ ["app", x, n ++ ".py"] ≠ (root ++ ["app", "api", v]) ++ [n ++ ".py"] := by
  intro he
  rw [List.append_assoc] at he
  have := List.append_cancel_left he
  have hlen := congrArg List.length this
  simp at hlen

theorem ne_layer_file (root : FPath) (a b x y : String) (hab : a ≠ b) :
    root ++ ["app", a, x] ≠ root ++ ["app", b, y] := by
  intro he
  have := List.append_cancel_left he
  simp only [List.cons.injEq] at this
  exact hab this.2.1

theorem moduleResultFS_lookup_schema (eng : TemplateEngine) (n v : String) (root : FPath) (fs : FS) :
    (moduleResultFS eng n v root fs).fileLookup (root ++ ["app", "schemas", n ++ ".py"])
      = some (eng.render "schema_module" (moduleContext n)) := by
  unfold moduleResultFS
  rw [fileLookup_writeFile_self]

theorem moduleResultFS_lookup_model (eng : TemplateEngine) (n v : String) (root : FPath) (fs : FS) :
    (moduleResultFS eng n v root fs).fileLookup (root ++ ["app", "models", n ++ ".py"])
      = some (eng.render "model_module" (moduleContext n)) := by
  unfold moduleResultFS
  rw [fileLookup_writeFile_ne _ _ _ _ (ne_layer_file root "schemas" "models" _ _ (by simp))]
  rw [fileLookup_mkdirp, fileLookup_writeFile_self]

theorem moduleResultFS_lookup_service (eng : TemplateEngine) (n v : String) (root : FPath) (fs : FS) :
    (moduleResultFS eng n v root fs).fileLookup (root ++ ["app", "services", n ++ ".py"])
      = some (eng.render "service_module" (moduleContext n)) := by
  unfold moduleResultFS
  rw [fileLookup_writeFile_ne _ _ _ _ (ne_layer_file root "schemas" "services" _ _ (by simp))]
  rw [fileLookup_mkdirp]
  rw [fileLookup_writeFile_ne _ _ _ _ (ne_layer_file root "models" "services" _ _ (by simp))]
  rw [fileLookup_mkdirp, fileLookup_writeFile_self]

theorem moduleResultFS_lookup_api (eng : TemplateEngine) (n v : String) (root : FPath) (fs : FS) :
    (moduleResultFS eng n v root fs).fileLookup ((root ++ ["app", "api", v]) ++ [n ++ ".py"])
      = some (eng.render "api_module" (moduleContext n)) := by
  unfold moduleResultFS
  rw [fileLookup_writeFile_ne _ _ _ _ (ne_api_file root n v "schemas")]
  rw [fileLookup_mkdirp]
  rw [fileLookup_writeFile_ne _ _ _ _ (ne_api_file root n v "models")]
  rw [fileLookup_mkdirp]
  rw [fileLookup_writeFile_ne _ _ _ _ (ne_api_file root n v "services")]
  rw [fileLookup_mkdirp, fileLookup_writeFile_self]

theorem moduleResultFS_prefix_dirs (eng : TemplateEngine) (n v : String) (root : FPath) (fs : FS)
    (p : FPath) (hp : p ∈ pathPrefixes (root ++ ["app", "api", v]) ∨ p ∈ pathPrefixes (root ++ ["app", "services"])
      ∨ p ∈ pathPrefixes (root ++ ["app", "models"]) ∨ p ∈ pathPrefixes (root ++ ["app", "schemas"])) :
    p ∈ (moduleResultFS eng n v root fs).dirs := by
  unfold moduleResultFS
  simp only [dirs_writeFile]
  rcases hp with h1 | h2 | h3 | h4
  · apply mem_dirs_mkdirp
    apply mem_dirs_mkdirp
    apply mem_dirs_mkdirp
    exact mem_prefixes_mkdirp _ _ _ h1
  · apply mem_dirs_mkdirp
    apply mem_dirs_mkdirp
    apply mem_prefixes_mkdirp
    exact h2
  · apply mem_dirs_mkdirp
    apply mem_prefixes_mkdirp
    exact h3
  · apply mem_prefixes_mkdirp
    exact h4

theorem moduleGenerate_idem (eng : TemplateEngine) (n v : String) (root : FPath) (fs fs' : FS)
    (h : moduleGenerate eng n v root fs = (none, fs')) :
    moduleGenerate eng n v root fs' = (none, fs') := by
  obtain ⟨hex, h1, h2, h3, h4, hfs⟩ := moduleGenerate_success eng n v root fs fs' h
  obtain ⟨t1, ht1⟩ := Option.isSome_iff_exists.mp h1
  obtain ⟨t2, ht2⟩ := Option.isSome_iff_exists.mp h2
  obtain ⟨t3, ht3⟩ := Option.isSome_iff_exists.mp h3
  obtain ⟨t4, ht4⟩ := Option.isSome_iff_exists.mp h4
  subst hfs
  have hex' : (moduleResultFS eng n v root fs).pathExists (root ++ ["app"]) = true := by
    unfold moduleResultFS
    apply pathExists_writeFile
    apply pathExists_mkdirp
    apply pathExists_writeFile
    apply pathExists_mkdirp
    apply pathExists_writeFile
    apply pathExists_mkdirp
    apply pathExists_writeFile
    apply pathExists_mkdirp
    exact hex
  have hcond : ¬ ((moduleResultFS eng n v root fs).pathExists (root ++ ["app"]) = false) := by
    simp [hex']
  unfold moduleGenerate
  rw [if_neg hcond]
  simp only [ht1, ht2, ht3, ht4]
  have eA : (moduleResultFS eng n v root fs).mkdirp (root ++ ["app", "api", v])
      = moduleResultFS eng n v root fs :=
    mkdirp_eq_self _ _ (fun q hq => moduleResultFS_prefix_dirs eng n v root fs q (Or.inl hq))
  have eS : (moduleResultFS eng n v root fs).mkdirp (root ++ ["app", "services"])
      = moduleResultFS eng n v root fs :=
    mkdirp_eq_self _ _ (fun q hq => moduleResultFS_prefix_dirs eng n v root fs q (Or.inr (Or.inl hq)))
  have eM : (moduleResultFS eng n v root fs).mkdirp (root ++ ["app", "models"])
      = moduleResultFS eng n v root fs :=
    mkdirp_eq_self _ _ (fun q hq => moduleResultFS_prefix_dirs eng n v root fs q (Or.inr (Or.inr (Or.inl hq))))
  have eC : (moduleResultFS eng n v root fs).mkdirp (root ++ ["app", "schemas"])
      = moduleResultFS eng n v root fs :=
    mkdirp_eq_self _ _ (fun q hq => moduleResultFS_prefix_dirs eng n v root fs q (Or.inr (Or.inr (Or.inr hq))))
  have wA : (moduleResultFS eng n v root fs).writeFile ((root ++ ["app", "api", v]) ++ [n ++ ".py"])
      (eng.render "api_module" (moduleContext n)) = moduleResultFS eng n v root fs :=
    writeFile_eq_self _ _ _ (moduleResultFS_lookup_api eng n v root fs)
  have wS : (moduleResultFS eng n v root fs).writeFile (root ++ ["app", "services", n ++ ".py"])
      (eng.render "service_module" (moduleContext n)) = moduleResultFS eng n v root fs :=
    writeFile_eq_self _ _ _ (moduleResultFS_lookup_service eng n v root fs)
  have wM : (moduleResultFS eng n v root fs).writeFile (root ++ ["app", "models", n ++ ".py"])
      (eng.render "model_module" (moduleContext n)) = moduleResultFS eng n v root fs :=
    writeFile_eq_self _ _ _ (moduleResultFS_lookup_model eng n v root fs)
  have wC : (moduleResultFS eng n v root fs).writeFile (root ++ ["app", "schemas", n ++ ".py"])
      (eng.render "schema_module" (moduleContext n)) = moduleResultFS eng n v root fs :=
    writeFile_eq_self _ _ _ (moduleResultFS_lookup_schema eng n v root fs)
  rw [eA, wA, eS, wS, eM, wM, eC, wC]

theorem generate_error_shape (eng : TemplateEngine) (cfg : Config) (fs : FS)
    (e : PyErr) (fs' : FS) (hinit : fs.pathExists cfg.projectPath = false)
    (h : generate eng cfg fs = (some e, fs')) :
    (∃ c, e = PyErr.wrapped c) ∧ fs'.pathExists cfg.projectPath = false := by
  unfold generate at h
  rw [if_neg (by simp [hinit])] at h
  cases hrun : runPhases (generatePhases eng cfg) (fs.mkdirp cfg.projectPath) with
  | mk oerr fsrun =>
    rw [hrun] at h
    cases oerr with
    | none => simp at h
    | some e0 =>
      simp only [Prod.mk.injEq, Option.some.injEq] at h
      obtain ⟨he, hfs⟩ := h
      refine ⟨⟨e0, he.symm⟩, ?_⟩
      subst hfs
      by_cases hre : fsrun.pathExists cfg.projectPath = true
      · rw [if_pos hre]
        exact rmtree_not_pathExists fsrun cfg.projectPath
      · rw [if_neg hre]
        revert hre
        cases fsrun.pathExists cfg.projectPath <;> simp

theorem spanId_eq_of (id : List Char) (c : Char) (r : List Char)
    (hall : ∀ x ∈ id, isIdChar x = true) (hc : isIdChar c = false) :
    spanId (id ++ c :: r) = (id, c :: r) := by
  induction id with
  | nil => simp [spanId, hc]
  | cons a id' ih =>
    have ha : isIdChar a = true := hall a (by simp)
    have ih' := ih (fun x hx => hall x (by simp [hx]))
    simp [spanId, ha, ih']

theorem substAux_cons_ne (ctx : Ctx) (c : Char) (rest : List Char) (h : c ≠ '$') :
    substAux ctx (c :: rest) = c :: substAux ctx rest := by
  show substAuxF ctx (c :: rest).length (c :: rest) = _
  simp only [List.length_cons, substAuxF, if_neg h]
  rfl

theorem substAux_append_nodollar (ctx : Ctx) (l1 l2 : List Char) (h : ∀ c ∈ l1, c ≠ '$') :
    substAux ctx (l1 ++ l2) = l1 ++ substAux ctx l2 := by
  induction l1 with
  | nil => simp
  | cons c l1' ih =>
    rw [List.cons_append, substAux_cons_ne ctx c (l1' ++ l2) (h c (by simp))]
    rw [ih (fun x hx => h x (by simp [hx]))]
    rfl

theorem substAux_escape (ctx : Ctx) (rest : List Char) :
    substAux ctx ('$' :: '$' :: rest) = '$' :: substAux ctx rest := by
  have h1 : substAux ctx ('$' :: '$' :: rest)
      = '$' :: substAuxF ctx (rest.length + 1) rest := rfl
  rw [h1, substAux_fuel ctx (rest.length + 1) rest (by omega)]

theorem substAux_braced_step (ctx : Ctx) (id rest : List Char) :
    substAux ctx ('$' :: openBrace :: (id ++ closeBrace :: rest))
      = if (spanId (id ++ closeBrace :: rest)).2.headD 'x' = closeBrace
          ∧ idOk (spanId (id ++ closeBrace :: rest)).1 = true then
          match alookup ctx ⟨(spanId (id ++ closeBrace :: rest)).1⟩ with
          | some v => v.data ++ substAuxF ctx ((id ++ closeBrace :: rest).length + 1)
              (spanId (id ++ closeBrace :: rest)).2.tail
          | none => '$' :: openBrace :: ((spanId (id ++ closeBrace :: rest)).1
              ++ closeBrace :: substAuxF ctx ((id ++ closeBrace :: rest).length + 1)
                (spanId (id ++ closeBrace :: rest)).2.tail)
        else '$' :: substAuxF ctx ((id ++ closeBrace :: rest).length + 1)
          (openBrace :: (id ++ closeBrace :: rest)) := rfl

theorem substAux_braced_present (ctx : Ctx) (id rest : List Char) (v : String)
    (hall : ∀ x ∈ id, isIdChar x = true) (hid : idOk id = true)
    (hlk : alookup ctx ⟨id⟩ = some v) :
    substAux ctx ('$' :: openBrace :: (id ++ closeBrace :: rest))
      = v.data ++ substAux ctx rest := by
  have hsp : spanId (id ++ closeBrace :: rest) = (id, closeBrace :: rest) :=
    spanId_eq_of id closeBrace rest hall (by decide)
  rw [substAux_braced_step, hsp]
  simp only [List.headD_cons, List.tail_cons, hid, and_true, if_true, hlk]
  rw [substAux_fuel ctx ((id ++ closeBrace :: rest).length + 1) rest
    (by simp [List.length_append]; omega)]

theorem substAux_braced_absent (ctx : Ctx) (id rest : List Char)
    (hall : ∀ x ∈ id, isIdChar x = true) (hid : idOk id = true)
    (hlk : alookup ctx ⟨id⟩ = none) :
    substAux ctx ('$' :: openBrace :: (id ++ closeBrace :: rest))
      = '$' :: openBrace :: (id ++ closeBrace :: substAux ctx rest) := by
  have hsp : spanId (id ++ closeBrace :: rest) = (id, closeBrace :: rest) :=
    spanId_eq_of id closeBrace rest hall (by decide)
  rw [substAux_braced_step, hsp]
  simp only [List.headD_cons, List.tail_cons, hid, and_true, if_true, hlk]
  rw [substAux_fuel ctx ((id ++ closeBrace :: rest).length + 1) rest
    (by simp [List.length_append]; omega)]

theorem api_version_ne_celery (v : String) : "app/api/" ++ v ≠ "app_celery" := by
  intro h
  have h2 : ('a' :: 'p' :: 'p' :: '/' :: 'a' :: 'p' :: 'i' :: '/' :: v.data)
      = ['a', 'p', 'p', '_', 'c', 'e', 'l', 'e', 'r', 'y'] := congrArg String.data h
  simp only [List.cons.injEq] at h2
  exact absurd h2.2.2.2.1 (by decide)

theorem layer_ne_celery (s : String) : "app/" ++ s ≠ "app_celery" := by
  intro h
  have h2 : ('a' :: 'p' :: 'p' :: '/' :: s.data)
      = ['a', 'p', 'p', '_', 'c', 'e', 'l', 'e', 'r', 'y'] := congrArg String.data h
  simp only [List.cons.injEq] at h2
  exact absurd h2.2.2.2.1 (by decide)

theorem app_celery_mem_iff (ps : ProjectStructure) (b : Bool) :
    "app_celery" ∈ buildDirectoryListWith ps b ↔ (ps.celery = true ∧ b = true) := by
  unfold buildDirectoryListWith
  constructor
  · intro h
    simp only [List.mem_append] at h
    rcases h with ((((((h1 | h2) | h3) | h4) | h5) | h6) | h7)
    · revert h1
      split <;> simp
    · obtain ⟨a, _, ha⟩ := List.mem_map.mp h2
      exact absurd ha (api_version_ne_celery a)
    · obtain ⟨lv, _, hlv⟩ := List.mem_filterMap.mp h3
      revert hlv
      split
      · intro hlv
        simp only [Option.some.injEq] at hlv
        exact absurd hlv (layer_ne_celery lv.1)
      · intro hlv
        simp at hlv
    · revert h4
      split <;> simp
    · revert h5
      split <;> simp
    · revert h6
      split <;> simp
    · revert h7
      split
      · rename_i hcel
        intro _
        simpa using hcel
      · simp
  · rintro ⟨h1, h2⟩
    simp [h1, h2]

/-- C1 counterexample: with the three docs templates missing from the
catalog, the docs phase body raises a template-missing error, yet
`generate` reports success, the project root still exists afterwards (no
rollback), the docs file was not produced, and the subsequent misc phase
still ran (requirements.txt was written).  This refutes the claim that an
error forced in any phase after root creation rolls back the root, aborts
later phases, and surfaces a wrapped error. -/
theorem c1_counterexample_docs_swallow :
    (generateDocsFilesBody engNoDocs cfg1 fs0).fst
        = some (PyErr.templateMissing "docs_api.md")
    ∧ (generate engNoDocs cfg1 fs0).fst = none
    ∧ (generate engNoDocs cfg1 fs0).snd.pathExists cfg1.projectPath = true
    ∧ (generate engNoDocs cfg1 fs0).snd.fileLookup ["shopapi", "docs", "api.md"] = none
    ∧ (generate engNoDocs cfg1 fs0).snd.fileLookup ["shopapi", "requirements.txt"] = some "x" :=
  ⟨by decide, by decide, by decide, by decide, by decide⟩

/-- C1 amended: for a fresh target root, any exception that escapes a phase
and reaches `generate`'s handler makes `generate` delete the root
recursively (the root no longer exists afterwards) and re-raise a
`RuntimeError` wrapping the original cause; however the docs phase catches
its own exceptions and merely logs a warning, so it never propagates an
error (and hence an error forced inside it triggers no rollback and aborts
nothing). -/
theorem c1_amended_rollback :
    (∀ (eng : TemplateEngine) (cfg : Config) (fs : FS) (e : PyErr) (fs' : FS),
      fs.pathExists cfg.projectPath = false → generate eng cfg fs = (some e, fs') →
      (∃ c, e = PyErr.wrapped c) ∧ fs'.pathExists cfg.projectPath = false)
    ∧ (∀ (eng : TemplateEngine) (cfg : Config) (fs : FS),
        (generateDocsFiles eng cfg fs).fst = none) := by
  constructor
  · exact fun eng cfg fs e fs' h1 h2 => generate_error_shape eng cfg fs e fs' h1 h2
  · intro eng cfg fs
    unfold generateDocsFiles
    rcases hb : generateDocsFilesBody eng cfg fs with ⟨o, f⟩
    cases o <;> simp

/-- C1 witness: concrete run with `main` missing from the catalog; the core
phase raises, `generate` rolls back (the root is gone) and the surfaced
error is the doubly wrapped template-missing cause; and the docs phase of a
docs-less catalog still reports success. -/
theorem c1_amended_rollback_witness :
    fs0.pathExists cfg1.projectPath = false
    ∧ ((∃ c, PyErr.wrapped (PyErr.wrapped (PyErr.templateMissing "main.py")) = PyErr.wrapped c)
        ∧ (generate engNoMain cfg1 fs0).snd.pathExists cfg1.projectPath = false)
    ∧ (generateDocsFiles engNoDocs cfg1 fs0).fst = none :=
  ⟨by decide,
   c1_amended_rollback.1 engNoMain cfg1 fs0 _ _ (by decide) (by decide),
   c1_amended_rollback.2 engNoDocs cfg1 fs0⟩

/-- C2 counterexample: with the celery feature flag enabled, the structure
builder still omits `app_celery` (the static `PROJECT_STRUCTURE["celery"]`
is `False` and the gate is a conjunction), and a full generation run leaves
no `app_celery` directory.  This refutes "with enable_celery true it is
created". -/
theorem c2_counterexample_celery_flag :
    "app_celery" ∉ buildDirectoryList cfg1Celery
    ∧ (generate engBase cfg1Celery fs0).fst = none
    ∧ (generate engBase cfg1Celery fs0).snd.pathExists ["shopapi", "app_celery"] = false :=
  ⟨by decide, by decide, by decide⟩

/-- C2 amended: the task-runner subtree appears in the built directory list
iff BOTH the static structure configuration's celery entry and the
enable_celery flag are true; since the shipped `PROJECT_STRUCTURE` sets the
celery entry to `False`, the subtree is never created, regardless of the
flag. -/
theorem c2_amended_celery_gate :
    (∀ (ps : ProjectStructure) (b : Bool),
      "app_celery" ∈ buildDirectoryListWith ps b ↔ (ps.celery = true ∧ b = true))
    ∧ PROJECT_STRUCTURE.celery = false :=
  ⟨app_celery_mem_iff, rfl⟩

/-- C3 counterexample: against a mapping table whose `initializer_db.py`
entry has a constantly-false predicate, path resolution returns `None`,
yet the initializer phase still writes a file for that template — at the
legacy convention-derived path `app/initializer/_db.py`.  This refutes "the
generator writes no file at all for that template in that phase". -/
theorem c3_counterexample_fallback_write :
    getTemplateTargetPathWith tblFalse cfg1.projectPath "initializer_db.py"
        (initializerCtx cfg1) = none
    ∧ (generateInitializerFilesWith tblFalse engInit cfg1 fs0).fst = none
    ∧ (generateInitializerFilesWith tblFalse engInit cfg1 fs0).snd.fileLookup
        ["shopapi", "app", "initializer", "_db.py"] = some "x" :=
  ⟨by decide, by decide, by decide⟩

/-- C3 amended: when a mapping exists and its predicate evaluates false,
`_get_template_target_path` does return `None`; but the phase loop treats
`None` exactly as "no mapping" and writes the rendered template to the
legacy convention-derived fallback path, so the skip is not honoured by the
caller.  (In the shipped `TEMPLATE_MAPPING` every predicate is `None`, so
the gated case never arises at runtime.) -/
theorem c3_amended_resolution_skip :
    (∀ (tbl : MappingTable) (root : FPath) (name : String) (ctx : Ctx) (target : String)
        (cond : Ctx → Bool), mlookup tbl name = some (target, some cond) → cond ctx = false →
        getTemplateTargetPathWith tbl root name ctx = none)
    ∧ (∀ (tbl : MappingTable) (eng : TemplateEngine) (cfg : Config) (ctx : Ctx)
        (fallback : String → FPath) (name : String) (rest : List String) (fs : FS),
        validateTemplate eng name = none →
        getTemplateTargetPathWith tbl cfg.projectPath name ctx = none →
        runMappedFiles tbl eng cfg ctx fallback (name :: rest) fs
          = runMappedFiles tbl eng cfg ctx fallback rest
              (fs.writeFile (cfg.projectPath ++ fallback name) (renderT eng name ctx))) := by
  constructor
  · intro tbl root name ctx target cond h1 h2
    unfold getTemplateTargetPathWith
    rw [h1]
    simp [h2]
  · intro tbl eng cfg ctx fallback name rest fs h1 h2
    conv_lhs => rw [runMappedFiles]
    simp only [h1, h2]

/-- C3 witness: the two amended statements instantiated at the concrete
false-predicate table. -/
theorem c3_amended_resolution_skip_witness :
    getTemplateTargetPathWith tblFalse ["shopapi"] "initializer_db.py" [] = none
    ∧ runMappedFiles tblFalse engInit cfg1 [] (fun _ => ["f"]) ["initializer_db.py"] fs0
        = runMappedFiles tblFalse engInit cfg1 [] (fun _ => ["f"]) []
            (fs0.writeFile (cfg1.projectPath ++ ["f"]) (renderT engInit "initializer_db.py" [])) :=
  ⟨c3_amended_resolution_skip.1 tblFalse ["shopapi"] "initializer_db.py" []
      "app/initializer/_db.py" (fun _ => false) rfl rfl,
   c3_amended_resolution_skip.2 tblFalse engInit cfg1 [] (fun _ => ["f"])
      "initializer_db.py" [] fs0 (by decide) rfl⟩

/-- C4 (code bug): with every template present except `models_init`, the
model-example phase — the one render site not preceded by
`_validate_template_exists` — silently writes the placeholder line
`"# Template models_init not found\n"` into `app/models/__init__.py` and
generation succeeds, instead of failing with a user-facing template-missing
error. -/
theorem c4_code_bug_models_init_placeholder :
    alookup engBase.templates "models_init" = none
    ∧ (generate engBase cfg1 fs0).fst = none
    ∧ (generate engBase cfg1 fs0).snd.fileLookup ["shopapi", "app", "models", "__init__.py"]
        = some "# Template models_init not found\n" :=
  ⟨by decide, by decide, by decide⟩

/-- C5 counterexample: the module context derives the identifier with
`str.capitalize()`, so the multi-word name "user_profile" yields
"User_profile", not the PascalCase "UserProfile" the claim requires. -/
theorem c5_counterexample_capitalize :
    moduleContext "user_profile"
        = [("module_name", "user_profile"), ("ModuleName", "User_profile")]
    ∧ "User_profile" ≠ "UserProfile" :=
  ⟨by decide, by decide⟩

/-- C5 amended: every successful augmentor run writes exactly the four
artifacts, each rendered with the context containing the raw module name
and the `str.capitalize()`-derived identifier (first character uppercased,
remainder lowercased, underscores preserved) — not a PascalCase
identifier. -/
theorem c5_amended_module_context :
    ∀ (eng : TemplateEngine) (n v : String) (root : FPath) (fs fs' : FS),
      moduleGenerate eng n v root fs = (none, fs') →
      fs'.fileLookup ((root ++ ["app", "api", v]) ++ [n ++ ".py"])
          = some (eng.render "api_module" (moduleContext n))
      ∧ fs'.fileLookup (root ++ ["app", "services", n ++ ".py"])
          = some (eng.render "service_module" (moduleContext n))
      ∧ fs'.fileLookup (root ++ ["app", "models", n ++ ".py"])
          = some (eng.render "model_module" (moduleContext n))
      ∧ fs'.fileLookup (root ++ ["app", "schemas", n ++ ".py"])
          = some (eng.render "schema_module" (moduleContext n))
      ∧ moduleContext n = [("module_name", n), ("ModuleName", pyCapitalize n)] := by
  intro eng n v root fs fs' h
  obtain ⟨_, _, _, _, _, hfs⟩ := moduleGenerate_success eng n v root fs fs' h
  subst hfs
  exact ⟨moduleResultFS_lookup_api eng n v root fs, moduleResultFS_lookup_service eng n v root fs,
    moduleResultFS_lookup_model eng n v root fs, moduleResultFS_lookup_schema eng n v root fs, rfl⟩

/-- C5 witness: a concrete successful run for module "user_profile". -/
theorem c5_amended_module_context_witness :
    (moduleGenerate engM4 "user_profile" "v1" ["proj"] fsP).snd.fileLookup
        ((["proj"] ++ ["app", "api", "v1"]) ++ ["user_profile" ++ ".py"])
      = some (engM4.render "api_module" (moduleContext "user_profile"))
    ∧ (moduleGenerate engM4 "user_profile" "v1" ["proj"] fsP).snd.fileLookup
        (["proj"] ++ ["app", "services", "user_profile" ++ ".py"])
      = some (engM4.render "service_module" (moduleContext "user_profile"))
    ∧ (moduleGenerate engM4 "user_profile" "v1" ["proj"] fsP).snd.fileLookup
        (["proj"] ++ ["app", "models", "user_profile" ++ ".py"])
      = some (engM4.render "model_module" (moduleContext "user_profile"))
    ∧ (moduleGenerate engM4 "user_profile" "v1" ["proj"] fsP).snd.fileLookup
        (["proj"] ++ ["app", "schemas", "user_profile" ++ ".py"])
      = some (engM4.render "schema_module" (moduleContext "user_profile"))
    ∧ moduleContext "user_profile"
        = [("module_name", "user_profile"), ("ModuleName", pyCapitalize "user_profile")] :=
  c5_amended_module_context engM4 "user_profile" "v1" ["proj"] fsP
    (moduleGenerate engM4 "user_profile" "v1" ["proj"] fsP).snd (by decide)

/-- C6 counterexample: rendering the text consisting of the two characters
`$$` with an empty context (so no placeholder key is present and nothing may
be replaced) yields the single character `$` — the escape contraction of
`string.Template` changes text even where no placeholder occurs, refuting
"never drops text". -/
theorem c6_counterexample_escape_contraction :
    safeSubstitute "$$" [] = "$" ∧ "$" ≠ "$$" :=
  ⟨by decide, by decide⟩

/-- C6 amended: safe substitution is a total function that (a) copies any
delimiter-free text verbatim, (b) contracts the escape `$$` to a single
`$`, and for a well-formed braced placeholder (c) substitutes the context
value when its key is present and (d) leaves the placeholder text verbatim
when the key is absent — it never raises and drops no text other than the
escape contraction. -/
theorem c6_amended_safe_substitution :
    (∀ (ctx : Ctx) (l1 l2 : List Char), (∀ c ∈ l1, c ≠ '$') →
      substAux ctx (l1 ++ l2) = l1 ++ substAux ctx l2)
    ∧ (∀ (ctx : Ctx) (rest : List Char),
        substAux ctx ('$' :: '$' :: rest) = '$' :: substAux ctx rest)
    ∧ (∀ (ctx : Ctx) (id rest : List Char) (v : String), (∀ x ∈ id, isIdChar x = true) →
        idOk id = true → alookup ctx ⟨id⟩ = some v →
        substAux ctx ('$' :: openBrace :: (id ++ closeBrace :: rest))
          = v.data ++ substAux ctx rest)
    ∧ (∀ (ctx : Ctx) (id rest : List Char), (∀ x ∈ id, isIdChar x = true) →
        idOk id = true → alookup ctx ⟨id⟩ = none →
        substAux ctx ('$' :: openBrace :: (id ++ closeBrace :: rest))
          = '$' :: openBrace :: (id ++ closeBrace :: substAux ctx rest)) :=
  ⟨substAux_append_nodollar, substAux_escape, substAux_braced_present, substAux_braced_absent⟩

/-- C6 witness: the four amended statements at concrete inputs. -/
theorem c6_amended_safe_substitution_witness :
    substAux [("k", "v")] (['a', 'b'] ++ ['$', 'k' ]) = ['a', 'b'] ++ substAux [("k", "v")] ['$', 'k']
    ∧ substAux [] ('$' :: '$' :: ['z']) = '$' :: substAux [] ['z']
    ∧ substAux [("name", "v")] ('$' :: openBrace :: (['n', 'a', 'm', 'e'] ++ closeBrace :: ['t']))
        = "v".data ++ substAux [("name", "v")] ['t']
    ∧ substAux [] ('$' :: openBrace :: (['n'] ++ closeBrace :: ['t']))
        = '$' :: openBrace :: (['n'] ++ closeBrace :: substAux [] ['t']) :=
  ⟨c6_amended_safe_substitution.1 [("k", "v")] ['a', 'b'] ['$', 'k'] (by decide),
   c6_amended_safe_substitution.2.1 [] ['z'],
   c6_amended_safe_substitution.2.2.1 [("name", "v")] ['n', 'a', 'm', 'e'] ['t'] "v"
     (by decide) (by decide) (by decide),
   c6_amended_safe_substitution.2.2.2 [] ['n'] ['t'] (by decide) (by decide) (by decide)⟩

/-- C7 confirmed: for any project tree with no entry at `<root>/app`, the
module augmentor raises its `ValueError` (InvalidProject) immediately, with
the filesystem returned exactly as it was — no directory created, no file
written. -/
theorem c7_invalid_project_unchanged :
    ∀ (eng : TemplateEngine) (n v : String) (root : FPath) (fs : FS),
      fs.pathExists (root ++ ["app"]) = false →
      moduleGenerate eng n v root fs = (some PyErr.invalidProject, fs) := by
  intro eng n v root fs h
  unfold moduleGenerate
  rw [if_pos h]

/-- C7 witness: augmenting an empty filesystem fails with InvalidProject
and leaves it empty. -/
theorem c7_invalid_project_unchanged_witness :
    fs0.pathExists (["proj"] ++ ["app"]) = false
    ∧ moduleGenerate engM4 "order" "v1" ["proj"] fs0 = (some PyErr.invalidProject, fs0) :=
  ⟨by decide, c7_invalid_project_unchanged engM4 "order" "v1" ["proj"] fs0 (by decide)⟩

/-- C8 confirmed: for every directory in the structure builder's result and
any prior filesystem state, the directory-structure phase returns no error
(directory creation is exist-ok, so it succeeds even when the directory
already exists), the directory is present afterwards, and the
package-marker file keeps its previous content when it already existed and
receives the marker text only when it was absent. -/
theorem c8_marker_idempotent :
    ∀ (cfg : Config) (fs : FS) (d : String), d ∈ buildDirectoryList cfg →
      createDirectoryStructure cfg fs
          = (none, (buildDirectoryList cfg).foldl (stepDir cfg.projectPath) fs)
      ∧ (cfg.projectPath ++ splitSlash d)
          ∈ ((buildDirectoryList cfg).foldl (stepDir cfg.projectPath) fs).dirs
      ∧ ((buildDirectoryList cfg).foldl (stepDir cfg.projectPath) fs).fileLookup
          (markerPath cfg.projectPath d)
          = some ((fs.fileLookup (markerPath cfg.projectPath d)).getD markerContent) := by
  intro cfg fs d hd
  have hpw : List.Pairwise (fun a b => splitSlash a ≠ splitSlash b) (buildDirectoryList cfg) := by
    rw [buildDirectoryList_eq]
    decide
  have hspec := foldl_stepDir_spec cfg.projectPath (buildDirectoryList cfg) fs d hd hpw
  exact ⟨rfl, hspec.2, hspec.1⟩

/-- C8 witness: a run over a state where the `docs` marker already exists
with content "keep" preserves that content (and the marker default is used
nowhere for it). -/
theorem c8_marker_idempotent_witness :
    ((cfg1.projectPath ++ splitSlash "docs")
        ∈ ((buildDirectoryList cfg1).foldl (stepDir cfg1.projectPath) fsDocs).dirs
      ∧ ((buildDirectoryList cfg1).foldl (stepDir cfg1.projectPath) fsDocs).fileLookup
          (markerPath cfg1.projectPath "docs")
          = some ((fsDocs.fileLookup (markerPath cfg1.projectPath "docs")).getD markerContent))
    ∧ ((buildDirectoryList cfg1).foldl (stepDir cfg1.projectPath) fsDocs).fileLookup
        (markerPath cfg1.projectPath "docs") = some "keep" :=
  ⟨(c8_marker_idempotent cfg1 fsDocs "docs" (by decide)).2, by decide⟩

/-- C9 confirmed: a second augmentor run with identical inputs against the
state left by a successful first run succeeds and leaves the filesystem
unchanged — every artifact is overwritten with identical content, so two
runs end in exactly the state of one. -/
theorem c9_module_generate_idempotent :
    ∀ (eng : TemplateEngine) (n v : String) (root : FPath) (fs fs' : FS),
      moduleGenerate eng n v root fs = (none, fs') →
      moduleGenerate eng n v root fs' = (none, fs') := by
  intro eng n v root fs fs' h
  exact moduleGenerate_idem eng n v root fs fs' h

/-- C9 witness: the concrete "order" module generated twice. -/
theorem c9_module_generate_idempotent_witness :
    moduleGenerate engM4 "order" "v1" ["proj"]
        (moduleGenerate engM4 "order" "v1" ["proj"] fsP).snd
      = (none, (moduleGenerate engM4 "order" "v1" ["proj"] fsP).snd) :=
  c9_module_generate_idempotent engM4 "order" "v1" ["proj"] fsP
    (moduleGenerate engM4 "order" "v1" ["proj"] fsP).snd (by decide)

/-- C10 counterexample: when the loaded catalog stores the empty string for
a name but the inline fallback catalog holds non-empty text for it,
`render` returns the substituted fallback text, not the not-found line. -/
theorem c10_counterexample_inline_fallback :
    TemplateEngine.render ⟨[("t", "")], [("t", "hello")]⟩ "t" [] = "hello"
    ∧ "hello" ≠ notFoundLine "t" :=
  ⟨by decide, by decide⟩

/-- C10 amended: a template whose stored text is the empty string is treated
as missing; `render` then consults the inline fallback catalog, and only
when that also yields nothing (no entry, or an empty entry) does it return
the literal line "# Template <name> not found\n" — for every context. -/
theorem c10_amended_empty_template :
    ∀ (eng : TemplateEngine) (name : String) (ctx : Ctx),
      alookup eng.templates name = some "" →
      (alookup eng.inline name = none ∨ alookup eng.inline name = some "") →
      eng.render name ctx = notFoundLine name := by
  intro eng name ctx h1 h2
  unfold TemplateEngine.render
  rw [h1]
  rcases h2 with h2 | h2 <;> simp [pyFalsy, h2]

/-- C10 witness: an engine storing `""` for "t" with an empty fallback
renders the not-found line. -/
theorem c10_amended_empty_template_witness :
    TemplateEngine.render ⟨[("t", "")], []⟩ "t" [("k", "v")] = notFoundLine "t" :=
  c10_amended_empty_template ⟨[("t", "")], []⟩ "t" [("k", "v")] (by decide) (Or.inl (by decide))
